import Mathlib

/-!
Verification of the tool-mediated response loop of the free-llm-usage
repository.

The repository's own code (under `src/`) consists of tool handlers
(`get_user_location`, `get_weather`, `get_time`), the registries passed to
`createReactAgent`, the execution contexts, and a structured-output
formatting phase.  The bounded decision loop itself, the tool registry
contract and the coercion phase's retry logic live in the imported agent
framework, not in the repository's files; those parts are modelled from the
specification (each such definition is marked `Modelled from the spec:`).
Handlers and registries are translated directly from the TypeScript source.
-/

namespace FreeLLM

/-! ## Data model -/

/-- Message role, per the spec's tagged union: system, user, assistant or
tool-result. -/
inductive Role
  | system
  | user
  | assistant
  | toolResult
deriving DecidableEq

/-- A conversation message: a role, text content, and (for tool results) the
originating tool name. -/
structure Message where
  role : Role
  content : String
  toolName : Option String := none
deriving DecidableEq

/-- Execution context: a read-only mapping from key to value (e.g.
`user_id`), as built by `const config = { context: { user_id: "1" } }` in the
source. -/
abbrev Ctx := List (String × String)

/-- Tool-call arguments as supplied by the oracle: a mapping from field name
to value. -/
abbrev Args := List (String × String)

/-- Lookup in a key-value mapping; `none` models a JavaScript `undefined`
property read. -/
def assocGet : List (String × String) → String → Option String
  | [], _ => none
  | (k, v) :: rest, key => if k = key then some v else assocGet rest key

/-- One parameter of a tool's input schema: its name and whether it is
required (a bare `z.string()` field is required in zod). -/
structure ParamSpec where
  pname : String
  required : Bool
deriving DecidableEq

/-! ## Tool handlers translated from the source files -/

namespace MultiTool
/- src/src/langchain/1_multi_tool_usage.ts -/

/-- Embeds the `get_weather` implementation of `1_multi_tool_usage.ts`:
the template literal result for a given city. -/
def getWeather (city : String) : String :=
  "It's always sunny in " ++ city

/-- Embeds the `get_time` implementation of `1_multi_tool_usage.ts`. -/
def getTime (city : String) : String :=
  "The current time in " ++ city ++ " is 3:00 PM"

end MultiTool

namespace UserCtx
/- src/src/langchain/2_agent_toolSetup_userContext.ts -/

/-- Embeds `get_user_location` of `2_agent_toolSetup_userContext.ts`: reads
`config.context.user_id` with no presence check.  An absent key reads as
`undefined` in JavaScript; `undefined === "1"` is `false`, so the handler
then returns "San Francisco".  The context is only read, and is returned
unchanged. -/
def getUserLocation (_args : Args) (ctx : Ctx) : Except String String × Ctx :=
  (Except.ok (if assocGet ctx "user_id" = some "1" then "New York" else "San Francisco"), ctx)

/-- Embeds the `get_weather` implementation of
`2_agent_toolSetup_userContext.ts`. -/
def getWeather (city : String) : String :=
  "It's always sunny in " ++ city

/-- The `get_weather` implementation as a handler over validated arguments:
destructures `city` from the input.  A JavaScript destructuring of an absent
field yields `undefined`, which the template literal renders as the text
"undefined". -/
def getWeatherHandler (args : Args) (ctx : Ctx) : Except String String × Ctx :=
  (Except.ok (getWeather (match assocGet args "city" with
    | some c => c
    | none => "undefined")), ctx)

/-- The execution context of `2_agent_toolSetup_userContext.ts`:
`{ context: { user_id: "1" } }`. -/
def configContext : Ctx := [("user_id", "1")]

end UserCtx

namespace Script3
/- src/unnamed/part_000 (the two-phase script with a system prompt) -/

/-- Embeds `get_user_location` of the unnamed two-phase script: reads
`config?.context?.user_id` and throws `"user_id missing from execution
context"` when the value is falsy (absent or the empty string).  The throw
happens inside the handler, at invocation time.  The context is returned
unchanged. -/
def getUserLocation (_args : Args) (ctx : Ctx) : Except String String × Ctx :=
  match assocGet ctx "user_id" with
  | none => (Except.error "user_id missing from execution context", ctx)
  | some u =>
    if u = "" then (Except.error "user_id missing from execution context", ctx)
    else (Except.ok (if u = "1" then "New York" else "San Francisco"), ctx)

/-- Embeds the `get_weather` implementation of the unnamed two-phase
script. -/
def getWeather (city : String) : String :=
  "It's always sunny in " ++ city

/-- The `get_weather` implementation as a handler over validated
arguments. -/
def getWeatherHandler (args : Args) (ctx : Ctx) : Except String String × Ctx :=
  (Except.ok (getWeather (match assocGet args "city" with
    | some c => c
    | none => "undefined")), ctx)

/-- The runtime execution context of the unnamed two-phase script:
`{ context: { user_id: "1" } }`. -/
def runtimeConfigContext : Ctx := [("user_id", "1")]

end Script3

/-! ## Tool declarations and the registry

The registry contract (`register` / `resolve` with `DuplicateToolName` and
`UnknownTool`) is owned by the agent framework, not by the repository's
files; it is modelled from the specification. -/

/-- A tool declaration: unique name, description for the oracle, input
schema, and a handler from arguments and execution context to a result (or a
thrown error) together with the context after the call. -/
structure ToolDecl where
  name : String
  description : String
  schema : List ParamSpec
  handler : Args → Ctx → Except String String × Ctx

/-- Registry errors.  Modelled from the spec: `register` fails with
`DuplicateToolName` on an existing name, `resolve` with `UnknownTool` on an
absent one. -/
inductive RegistryError
  | DuplicateToolName
  | UnknownTool
deriving DecidableEq

/-- Modelled from the spec: `resolve(name) -> Declaration` fails with
`UnknownTool` if absent.  (The registry lives inside `createReactAgent`,
which is library code outside `src/`.) -/
def resolve (reg : List ToolDecl) (n : String) : Except RegistryError ToolDecl :=
  match reg.find? (fun t => t.name == n) with
  | some d => Except.ok d
  | none => Except.error RegistryError.UnknownTool

/-- Modelled from the spec: `register(declaration)` fails with
`DuplicateToolName` if the name already exists, otherwise appends the
declaration. -/
def register (reg : List ToolDecl) (d : ToolDecl) : Except RegistryError (List ToolDecl) :=
  if reg.any (fun t => t.name == d.name) then Except.error RegistryError.DuplicateToolName
  else Except.ok (reg ++ [d])

/-- The `get_user_location` declaration of
`2_agent_toolSetup_userContext.ts`: empty schema (`z.object({})`), handler
reading the context. -/
def UserCtx.getUserLocationDecl : ToolDecl :=
  { name := "get_user_location"
    description := "Retrieves the user's current location based on their user ID."
    schema := []
    handler := UserCtx.getUserLocation }

/-- The `get_weather` declaration of `2_agent_toolSetup_userContext.ts`:
schema `z.object({ city: z.string() })` with `city` required. -/
def UserCtx.getWeatherDecl : ToolDecl :=
  { name := "get_weather"
    description := "Retrieves the weather for a given city."
    schema := [{ pname := "city", required := true }]
    handler := UserCtx.getWeatherHandler }

/-- The registry of `2_agent_toolSetup_userContext.ts`:
`tools: [getUserLocation, getWeather]`. -/
def UserCtx.registry : List ToolDecl :=
  [UserCtx.getUserLocationDecl, UserCtx.getWeatherDecl]

/-- The `get_user_location` declaration of the unnamed two-phase script. -/
def Script3.getUserLocationDecl : ToolDecl :=
  { name := "get_user_location"
    description := "Retrieves the user's current location based on their user ID."
    schema := []
    handler := Script3.getUserLocation }

/-- The `get_weather` declaration of the unnamed two-phase script. -/
def Script3.getWeatherDecl : ToolDecl :=
  { name := "get_weather"
    description := "Retrieves the weather for a given city."
    schema := [{ pname := "city", required := true }]
    handler := Script3.getWeatherHandler }

/-- The registry of the unnamed two-phase script:
`tools: [getUserLocation, getWeather]`. -/
def Script3.registry : List ToolDecl :=
  [Script3.getUserLocationDecl, Script3.getWeatherDecl]

/-! ## The bounded tool-mediated response loop

Modelled from the spec (section 4.2): the loop is implemented by
`createReactAgent`, library code outside `src/`; the round bound `N` is the
safety property the spec mandates.  Per round: submit the messages to the
oracle; a final message terminates the loop; tool-call requests are resolved
(`UnknownTool` fed back as a tool-result error), validated
(`InvalidToolArguments` fed back as a tool-result error), executed (handler
failures wrapped as tool-result errors), and the results appended.  When
round `N` is exhausted the loop fails with `ToolLoopExceeded`. -/

/-- A tool-call request emitted by the oracle: a tool name and arguments. -/
structure ToolCall where
  name : String
  args : Args
deriving DecidableEq

/-- An oracle response: either a final textual message, or one or more
tool-call requests. -/
inductive OracleResponse
  | finalMsg (content : String)
  | toolCalls (calls : List ToolCall)
deriving DecidableEq

/-- The oracle: a function from conversation state to a response.  The real
language model is opaque; the spec models it as an injectable strategy. -/
abbrev Oracle := List Message → OracleResponse

/-- Result of the loop: the final transcript and answer, or `ToolLoopExceeded`
with the transcript accumulated so far.  `UnknownTool` and
`InvalidToolArguments` are deliberately absent: they are fed back to the
oracle, never raised to the caller. -/
inductive LoopResult
  | success (transcript : List Message) (answer : String)
  | exceeded (transcript : List Message)
deriving DecidableEq

/-- The tool-result message produced when the oracle requests a tool name
absent from the registry.  Modelled from the spec: the `UnknownTool` error is
reported back to the oracle as a tool-result error. -/
def unknownToolMsg (n : String) : Message :=
  { role := Role.toolResult, content := "UnknownTool: " ++ n, toolName := some n }

/-- The tool-result message produced when the oracle's arguments miss a
required schema field.  Modelled from the spec: the `InvalidToolArguments`
error is surfaced as a tool-result error rather than aborting the loop. -/
def invalidArgsMsg (n p : String) : Message :=
  { role := Role.toolResult
    content := "InvalidToolArguments: missing required field " ++ p
    toolName := some n }

/-- The tool-result message wrapping a handler's own failure.  Modelled from
the spec: handler failures are wrapped as tool-result errors. -/
def handlerFailMsg (n e : String) : Message :=
  { role := Role.toolResult, content := "ToolHandlerFailure: " ++ e, toolName := some n }

/-- The tool-result message carrying a successful handler return value. -/
def toolResultMsg (n r : String) : Message :=
  { role := Role.toolResult, content := r, toolName := some n }

/-- Modelled from the spec: validate oracle-supplied arguments against the
declared schema, failing with the name of the first required field that is
missing. -/
def validateArgs (schema : List ParamSpec) (args : Args) : Except String Unit :=
  match schema.find? (fun p => p.required && (assocGet args p.pname).isNone) with
  | some p => Except.error p.pname
  | none => Except.ok ()

/-- Modelled from the spec: execute one tool-call request — resolve the
name, validate the arguments, invoke the handler — producing the tool-result
message to append and the context after the call. -/
def runToolCall (reg : List ToolDecl) (ctx : Ctx) (c : ToolCall) : Message × Ctx :=
  match resolve reg c.name with
  | Except.error _ => (unknownToolMsg c.name, ctx)
  | Except.ok d =>
    match validateArgs d.schema c.args with
    | Except.error p => (invalidArgsMsg c.name p, ctx)
    | Except.ok _ =>
      match d.handler c.args ctx with
      | (Except.ok r, ctx2) => (toolResultMsg c.name r, ctx2)
      | (Except.error e, ctx2) => (handlerFailMsg c.name e, ctx2)

/-- Modelled from the spec: execute each tool-call request of one round in
order, threading the context, and collect the tool-result messages. -/
def processCalls (reg : List ToolDecl) : Ctx → List ToolCall → List Message × Ctx
  | ctx, [] => ([], ctx)
  | ctx, c :: cs =>
    let r := runToolCall reg ctx c
    let rest := processCalls reg r.2 cs
    (r.1 :: rest.1, rest.2)

/-- Modelled from the spec: the bounded loop.  Returns the number of oracle
round-trips actually performed together with the result.  With zero rounds
remaining the loop fails with `ToolLoopExceeded`; otherwise it submits the
messages to the oracle, terminates on a final message, and on tool-call
requests appends the tool-result messages and proceeds to the next round. -/
def runLoop (oracle : Oracle) (reg : List ToolDecl) : Ctx → List Message → Nat → Nat × LoopResult
  | _, msgs, 0 => (0, LoopResult.exceeded msgs)
  | ctx, msgs, n + 1 =>
    match oracle msgs with
    | OracleResponse.finalMsg c =>
      (1, LoopResult.success (msgs ++ [{ role := Role.assistant, content := c }]) c)
    | OracleResponse.toolCalls calls =>
      let step := processCalls reg ctx calls
      let rest := runLoop oracle reg step.2 (msgs ++ step.1) n
      (rest.1 + 1, rest.2)

/-! ## Helper lemmas -/

/-- A name is fresh for a registry when no registered tool carries it. -/
def freshName (reg : List ToolDecl) (n : String) : Prop := ∀ t ∈ reg, t.name ≠ n

theorem resolve_of_fresh (reg : List ToolDecl) (n : String) (h : freshName reg n) :
    resolve reg n = Except.error RegistryError.UnknownTool := by
  unfold resolve
  rw [List.find?_eq_none.mpr]
  intro t ht
  simpa using h t ht

theorem register_of_fresh (reg : List ToolDecl) (d : ToolDecl) (h : freshName reg d.name) :
    register reg d = Except.ok (reg ++ [d]) := by
  unfold register
  rw [if_neg]
  simp only [List.any_eq_true, beq_iff_eq, not_exists]
  intro t
  simp only [not_and]
  exact fun ht => h t ht

theorem resolve_append_self (reg : List ToolDecl) (d : ToolDecl) (h : freshName reg d.name) :
    resolve (reg ++ [d]) d.name = Except.ok d := by
  unfold resolve
  rw [List.find?_append, List.find?_eq_none.mpr]
  · simp
  · intro t ht
    simpa using h t ht

/-! ## The claims -/

/-- C10: for every string city, the `get_weather` handler deterministically
returns "It's always sunny in " followed by the city, independent of the
execution context, and the behaviour is identical across the three
registrations of `get_weather` in the repository (1_multi_tool_usage.ts,
2_agent_toolSetup_userContext.ts, and the unnamed two-phase script). -/
theorem C10_get_weather_uniform (city : String) (ctx : Ctx) :
    MultiTool.getWeather city = "It's always sunny in " ++ city ∧
    UserCtx.getWeather city = MultiTool.getWeather city ∧
    Script3.getWeather city = MultiTool.getWeather city ∧
    UserCtx.getWeatherHandler [("city", city)] ctx =
      (Except.ok ("It's always sunny in " ++ city), ctx) ∧
    Script3.getWeatherHandler [("city", city)] ctx =
      (Except.ok ("It's always sunny in " ++ city), ctx) := by
  refine ⟨rfl, rfl, rfl, ?_, ?_⟩ <;>
    simp [UserCtx.getWeatherHandler, Script3.getWeatherHandler, UserCtx.getWeather,
      Script3.getWeather, assocGet]

theorem getUserLocation_script3_snd (args : Args) (ctx : Ctx) :
    (Script3.getUserLocation args ctx).2 = ctx := by
  unfold Script3.getUserLocation
  cases assocGet ctx "user_id" with
  | none => rfl
  | some u =>
    dsimp only
    split <;> rfl

/-- C9: every registered tool handler leaves the execution context it was
invoked with unchanged: handlers read the context but never mutate it. -/
theorem C9_handlers_preserve_context :
    (∀ args ctx, (UserCtx.getUserLocation args ctx).2 = ctx) ∧
    (∀ args ctx, (UserCtx.getWeatherHandler args ctx).2 = ctx) ∧
    (∀ args ctx, (Script3.getUserLocation args ctx).2 = ctx) ∧
    (∀ args ctx, (Script3.getWeatherHandler args ctx).2 = ctx) ∧
    (∀ d, d ∈ UserCtx.registry ∨ d ∈ Script3.registry →
      ∀ args ctx, (d.handler args ctx).2 = ctx) := by
  refine ⟨fun _ _ => rfl, fun _ _ => rfl, getUserLocation_script3_snd, fun _ _ => rfl, ?_⟩
  intro d hd args ctx
  rcases hd with hd | hd <;>
    simp only [UserCtx.registry, Script3.registry, List.mem_cons, List.mem_singleton,
      List.not_mem_nil, or_false] at hd <;>
    rcases hd with rfl | rfl
  · exact rfl
  · exact rfl
  · exact getUserLocation_script3_snd args ctx
  · exact rfl

/-- Witness for C9 at a concrete registry member, argument list and
context. -/
theorem C9_witness :
    (UserCtx.getUserLocationDecl.handler [] [("user_id", "1")]).2 = [("user_id", "1")] :=
  C9_handlers_preserve_context.2.2.2.2 UserCtx.getUserLocationDecl
    (Or.inl (by simp [UserCtx.registry])) [] [("user_id", "1")]

/-- C4: registering a declaration under a fresh name succeeds and `resolve`
then returns that same declaration; registering an existing name fails with
`DuplicateToolName`; resolving an absent name fails with `UnknownTool`. -/
theorem C4_registry_contract (reg : List ToolDecl) (d : ToolDecl) (n : String) :
    (freshName reg d.name →
      register reg d = Except.ok (reg ++ [d]) ∧
      resolve (reg ++ [d]) d.name = Except.ok d) ∧
    ((∃ t ∈ reg, t.name = d.name) →
      register reg d = Except.error RegistryError.DuplicateToolName) ∧
    (freshName reg n → resolve reg n = Except.error RegistryError.UnknownTool) := by
  refine ⟨fun h => ⟨register_of_fresh reg d h, resolve_append_self reg d h⟩, ?_, fun h =>
    resolve_of_fresh reg n h⟩
  intro ⟨t, ht, hname⟩
  unfold register
  rw [if_pos]
  rw [List.any_eq_true]
  exact ⟨t, ht, by simpa using hname⟩

/-- Witness for C4: the `get_weather` declaration registered into the empty
registry resolves to itself; registering it again is a duplicate; resolving
an absent name is unknown. -/
theorem C4_witness :
    register [] UserCtx.getWeatherDecl = Except.ok [UserCtx.getWeatherDecl] ∧
    resolve [UserCtx.getWeatherDecl] "get_weather" = Except.ok UserCtx.getWeatherDecl ∧
    register [UserCtx.getWeatherDecl] UserCtx.getWeatherDecl =
      Except.error RegistryError.DuplicateToolName ∧
    resolve [] "get_user_location" = Except.error RegistryError.UnknownTool := by
  have hfresh : freshName [] UserCtx.getWeatherDecl.name := fun t ht => by simp at ht
  have h1 := (C4_registry_contract [] UserCtx.getWeatherDecl "x").1 hfresh
  have h2 := (C4_registry_contract [UserCtx.getWeatherDecl] UserCtx.getWeatherDecl "x").2.1
    ⟨UserCtx.getWeatherDecl, by simp, rfl⟩
  have h3 := (C4_registry_contract [] UserCtx.getWeatherDecl "get_user_location").2.2
    (fun t ht => by simp at ht)
  exact ⟨h1.1, h1.2, h2, h3⟩

/-- C1: an oracle that requests tool calls on every round drives the loop to
`ToolLoopExceeded` after exactly `N` oracle round-trips — no more, no fewer —
for every registry, context, initial message sequence and caller-supplied
bound `N`. -/
theorem C1_tool_loop_exceeded (oracle : Oracle) (reg : List ToolDecl) (ctx : Ctx)
    (msgs : List Message) (N : Nat)
    (h : ∀ ms, ∃ cs, oracle ms = OracleResponse.toolCalls cs) :
    (runLoop oracle reg ctx msgs N).1 = N ∧
    ∃ tr, (runLoop oracle reg ctx msgs N).2 = LoopResult.exceeded tr := by
  induction N generalizing ctx msgs with
  | zero => exact ⟨rfl, msgs, rfl⟩
  | succ n ih =>
    obtain ⟨cs, hcs⟩ := h msgs
    have step := processCalls reg ctx cs
    obtain ⟨h1, tr, h2⟩ := ih (processCalls reg ctx cs).2 (msgs ++ (processCalls reg ctx cs).1)
    refine ⟨?_, tr, ?_⟩ <;> simp [runLoop, hcs, h1, h2]

/-- Witness for C1: a mock oracle that always requests the tool `t` exhausts
a budget of three rounds and fails with `ToolLoopExceeded`. -/
theorem C1_witness :
    (runLoop (fun _ => OracleResponse.toolCalls [⟨"t", []⟩]) [] [] [] 3).1 = 3 ∧
    ∃ tr, (runLoop (fun _ => OracleResponse.toolCalls [⟨"t", []⟩]) [] [] [] 3).2 =
      LoopResult.exceeded tr :=
  C1_tool_loop_exceeded (fun _ => OracleResponse.toolCalls [⟨"t", []⟩]) [] [] [] 3
    (fun _ => ⟨[⟨"t", []⟩], rfl⟩)

/-- C2: when the oracle requests a tool whose name the registry does not
resolve, the round appends exactly one `UnknownTool`-flavored tool-result
message and the loop continues with the next round on the extended
transcript; the error is never raised to the caller (the continuation's
result, whatever it is, is the loop's result). -/
theorem C2_unknown_tool_feedback (oracle : Oracle) (reg : List ToolDecl) (ctx : Ctx)
    (msgs : List Message) (n : Nat) (c : ToolCall)
    (h1 : oracle msgs = OracleResponse.toolCalls [c])
    (h2 : resolve reg c.name = Except.error RegistryError.UnknownTool) :
    runLoop oracle reg ctx msgs (n + 1) =
      ((runLoop oracle reg ctx (msgs ++ [unknownToolMsg c.name]) n).1 + 1,
       (runLoop oracle reg ctx (msgs ++ [unknownToolMsg c.name]) n).2) := by
  have hp : processCalls reg ctx [c] = ([unknownToolMsg c.name], ctx) := by
    simp [processCalls, runToolCall, h2]
  simp [runLoop, h1, hp]

/-- Witness for C2: the oracle hallucinating the name `does_not_exist`
against the registry of `2_agent_toolSetup_userContext.ts` gets one
`UnknownTool` tool-result back and the loop continues. -/
theorem C2_witness :
    runLoop (fun _ => OracleResponse.toolCalls [⟨"does_not_exist", []⟩]) UserCtx.registry
        UserCtx.configContext [] (1 + 1) =
      ((runLoop (fun _ => OracleResponse.toolCalls [⟨"does_not_exist", []⟩]) UserCtx.registry
          UserCtx.configContext ([] ++ [unknownToolMsg "does_not_exist"]) 1).1 + 1,
       (runLoop (fun _ => OracleResponse.toolCalls [⟨"does_not_exist", []⟩]) UserCtx.registry
          UserCtx.configContext ([] ++ [unknownToolMsg "does_not_exist"]) 1).2) :=
  C2_unknown_tool_feedback _ UserCtx.registry UserCtx.configContext [] 1
    ⟨"does_not_exist", []⟩ rfl rfl

/-- C3: when the oracle requests a declared tool with arguments missing a
required schema field, the round appends one `InvalidToolArguments`
tool-result message and the loop continues on the extended transcript;
moreover any registry resolving that name to a declaration with the same
schema produces that same fixed tool-result with the context untouched,
independently of the declaration's handler — the handler is not invoked. -/
theorem C3_invalid_arguments_feedback (oracle : Oracle) (reg : List ToolDecl) (ctx : Ctx)
    (msgs : List Message) (n : Nat) (c : ToolCall) (d : ToolDecl) (p : String)
    (h1 : oracle msgs = OracleResponse.toolCalls [c])
    (h2 : resolve reg c.name = Except.ok d)
    (h3 : validateArgs d.schema c.args = Except.error p) :
    runLoop oracle reg ctx msgs (n + 1) =
      ((runLoop oracle reg ctx (msgs ++ [invalidArgsMsg c.name p]) n).1 + 1,
       (runLoop oracle reg ctx (msgs ++ [invalidArgsMsg c.name p]) n).2) ∧
    (∀ reg2 ctx2 d2, resolve reg2 c.name = Except.ok d2 → d2.schema = d.schema →
      runToolCall reg2 ctx2 c = (invalidArgsMsg c.name p, ctx2)) := by
  have hrun : ∀ reg2 ctx2 d2, resolve reg2 c.name = Except.ok d2 → d2.schema = d.schema →
      runToolCall reg2 ctx2 c = (invalidArgsMsg c.name p, ctx2) := by
    intro reg2 ctx2 d2 hres hsch
    unfold runToolCall
    rw [hres]
    dsimp only
    rw [hsch, h3]
  have hp : processCalls reg ctx [c] = ([invalidArgsMsg c.name p], ctx) := by
    simp [processCalls, hrun reg ctx d h2 rfl]
  refine ⟨?_, hrun⟩
  simp [runLoop, h1, hp]

/-- Witness for C3: the oracle calling `get_weather` with no arguments
against the registry of `2_agent_toolSetup_userContext.ts` (whose schema
requires `city`) gets an `InvalidToolArguments` tool-result back and the
loop continues; the handler is not consulted. -/
theorem C3_witness :
    runLoop (fun _ => OracleResponse.toolCalls [⟨"get_weather", []⟩]) UserCtx.registry
        UserCtx.configContext [] (1 + 1) =
      ((runLoop (fun _ => OracleResponse.toolCalls [⟨"get_weather", []⟩]) UserCtx.registry
          UserCtx.configContext ([] ++ [invalidArgsMsg "get_weather" "city"]) 1).1 + 1,
       (runLoop (fun _ => OracleResponse.toolCalls [⟨"get_weather", []⟩]) UserCtx.registry
          UserCtx.configContext ([] ++ [invalidArgsMsg "get_weather" "city"]) 1).2) ∧
    (∀ reg2 ctx2 d2, resolve reg2 "get_weather" = Except.ok d2 →
      d2.schema = UserCtx.getWeatherDecl.schema →
      runToolCall reg2 ctx2 ⟨"get_weather", []⟩ =
        (invalidArgsMsg "get_weather" "city", ctx2)) :=
  C3_invalid_arguments_feedback _ UserCtx.registry UserCtx.configContext [] 1
    ⟨"get_weather", []⟩ UserCtx.getWeatherDecl "city" rfl rfl rfl

/-! ## The location-aware weather scenario -/

/-- The user message of `2_agent_toolSetup_userContext.ts` and of the unnamed
two-phase script. -/
def weatherUserMsg : Message :=
  { role := Role.user, content := "What is the weather outside?" }

/-- Count of the tool-result messages in a transcript: how many tool calls
the scripted oracle has already seen answered. -/
def countToolResults (ms : List Message) : Nat :=
  (ms.filter (fun m => decide (m.role = Role.toolResult))).length

/-- Modelled from the spec: the scripted oracle of the location-aware
weather scenario (the spec directs that the oracle be an injectable strategy
so the loop can be exercised deterministically).  It first requests
`get_user_location` with no arguments, then `get_weather` for New York, then
produces a final message about New York's weather. -/
def weatherOracle (ms : List Message) : OracleResponse :=
  match countToolResults ms with
  | 0 => OracleResponse.toolCalls [⟨"get_user_location", []⟩]
  | 1 => OracleResponse.toolCalls [⟨"get_weather", [("city", "New York")]⟩]
  | _ => OracleResponse.finalMsg "The weather outside in New York is sunny, as always."

/-- C6: with context `{user_id: "1"}`, the tools of
`2_agent_toolSetup_userContext.ts`, and the user message "What is the
weather outside?", the loop first calls `get_user_location` with no
arguments — which returns "New York" from the context alone — then calls
`get_weather` with `city = "New York"` producing "It's always sunny in New
York", and terminates with a final assistant message mentioning New York. -/
theorem C6_location_weather_scenario :
    runLoop weatherOracle UserCtx.registry UserCtx.configContext [weatherUserMsg] 5 =
      (3, LoopResult.success
        [weatherUserMsg,
         toolResultMsg "get_user_location" "New York",
         toolResultMsg "get_weather" "It's always sunny in New York",
         { role := Role.assistant,
           content := "The weather outside in New York is sunny, as always." }]
        "The weather outside in New York is sunny, as always.") ∧
    UserCtx.getUserLocation [] UserCtx.configContext =
      (Except.ok "New York", UserCtx.configContext) ∧
    "New York".data <:+: "The weather outside in New York is sunny, as always.".data := by
  refine ⟨by decide, rfl, by decide⟩

/-! ## Missing execution context -/

/-- Modelled from the spec: a scripted oracle that requests only
`get_user_location` and then finishes, used to observe what the code does
when the execution context lacks `user_id`. -/
def locOnlyOracle (ms : List Message) : OracleResponse :=
  match countToolResults ms with
  | 0 => OracleResponse.toolCalls [⟨"get_user_location", []⟩]
  | _ => OracleResponse.finalMsg "done"

/-- Counterexample to C7: with an empty execution context (no `user_id`),
the request does not fail before the loop starts — the loop of
`2_agent_toolSetup_userContext.ts` runs to completion, and the handler
silently defaults the missing value, returning "San Francisco" inside the
loop. -/
theorem C7_counterexample :
    UserCtx.getUserLocation [] [] = (Except.ok "San Francisco", []) ∧
    runLoop locOnlyOracle UserCtx.registry [] [weatherUserMsg] 3 =
      (2, LoopResult.success
        [weatherUserMsg,
         toolResultMsg "get_user_location" "San Francisco",
         { role := Role.assistant, content := "done" }]
        "done") := by
  refine ⟨rfl, by decide⟩

/-- C7 as amended: when `get_user_location` reads a `user_id` absent from
the execution context, no failure happens before the loop starts.  In
`2_agent_toolSetup_userContext.ts` the missing value is silently defaulted:
the handler returns "San Francisco".  In the unnamed two-phase script the
handler throws "user_id missing from execution context" at invocation time,
mid-loop, and the failure is wrapped as a tool-result error rather than
aborting the request. -/
theorem C7_amended_no_fail_fast :
    (∀ ctx, assocGet ctx "user_id" = none →
      UserCtx.getUserLocation [] ctx = (Except.ok "San Francisco", ctx)) ∧
    (∀ ctx, assocGet ctx "user_id" = none →
      Script3.getUserLocation [] ctx =
        (Except.error "user_id missing from execution context", ctx)) ∧
    runLoop locOnlyOracle Script3.registry [] [weatherUserMsg] 3 =
      (2, LoopResult.success
        [weatherUserMsg,
         handlerFailMsg "get_user_location" "user_id missing from execution context",
         { role := Role.assistant, content := "done" }]
        "done") := by
  refine ⟨?_, ?_, by decide⟩
  · intro ctx h
    unfold UserCtx.getUserLocation
    rw [h]
    simp
  · intro ctx h
    unfold Script3.getUserLocation
    rw [h]

/-- Witness for the amended C7 at the empty context. -/
theorem C7_amended_witness :
    UserCtx.getUserLocation [] [] = (Except.ok "San Francisco", []) ∧
    Script3.getUserLocation [] [] =
      (Except.error "user_id missing from execution context", []) :=
  ⟨C7_amended_no_fail_fast.1 [] rfl, C7_amended_no_fail_fast.2.1 [] rfl⟩

/-! ## Confidentiality of the execution context -/

/-- A message is safe for a secret when the secret does not occur in its
content as a substring. -/
def msgSafe (secret : String) (m : Message) : Prop :=
  ¬ (secret.data <:+: m.content.data)

instance (secret : String) (m : Message) : Decidable (msgSafe secret m) :=
  inferInstanceAs (Decidable (¬ (secret.data <:+: m.content.data)))

/-- Safety of a handler outcome: neither a returned result nor a wrapped
handler failure carries the secret. -/
def handlerResultSafe (secret n : String) : Except String String → Prop
  | Except.ok r => msgSafe secret (toolResultMsg n r)
  | Except.error e => msgSafe secret (handlerFailMsg n e)

/-- Safety of one tool-call request: whatever tool-result message the call
can produce — unknown-tool error, invalid-arguments error, handler result or
wrapped handler failure — is free of the secret. -/
def callSafe (secret : String) (reg : List ToolDecl) (c : ToolCall) : Prop :=
  msgSafe secret (unknownToolMsg c.name) ∧
  ∀ d, resolve reg c.name = Except.ok d →
    (∀ ps ∈ d.schema, msgSafe secret (invalidArgsMsg c.name ps.pname)) ∧
    (∀ ctx, handlerResultSafe secret c.name (d.handler c.args ctx).1)

/-- Safety of the oracle: no final message it emits carries the secret, and
every tool call it requests is safe.  The oracle never sees the execution
context, so a secret context value not returned by a handler satisfies
this. -/
def oracleSafe (secret : String) (reg : List ToolDecl) (oracle : Oracle) : Prop :=
  ∀ ms, (∀ t, oracle ms = OracleResponse.finalMsg t → ¬ (secret.data <:+: t.data)) ∧
    (∀ cs, oracle ms = OracleResponse.toolCalls cs → ∀ c ∈ cs, callSafe secret reg c)

/-- The transcript carried by a loop result. -/
def transcriptOf : LoopResult → List Message
  | LoopResult.success tr _ => tr
  | LoopResult.exceeded tr => tr

theorem validateArgs_error_mem {schema : List ParamSpec} {args : Args} {p : String}
    (h : validateArgs schema args = Except.error p) : ∃ ps ∈ schema, ps.pname = p := by
  unfold validateArgs at h
  cases hf : schema.find? (fun ps => ps.required && (assocGet args ps.pname).isNone) with
  | none => rw [hf] at h; cases h
  | some ps =>
    rw [hf] at h
    refine ⟨ps, List.mem_of_find?_eq_some hf, ?_⟩
    injection h

theorem runToolCall_safe {secret : String} {reg : List ToolDecl} {c : ToolCall} {ctx : Ctx}
    (h : callSafe secret reg c) : msgSafe secret (runToolCall reg ctx c).1 := by
  unfold runToolCall
  cases hres : resolve reg c.name with
  | error e => exact h.1
  | ok d =>
    obtain ⟨hinv, hhandler⟩ := h.2 d hres
    dsimp only
    cases hval : validateArgs d.schema c.args with
    | error p =>
      obtain ⟨ps, hmem, hp⟩ := validateArgs_error_mem hval
      exact hp ▸ hinv ps hmem
    | ok u =>
      dsimp only
      cases hh : d.handler c.args ctx with
      | mk fst snd =>
        have hs := hhandler ctx
        rw [hh] at hs
        cases fst with
        | ok r => exact hs
        | error e => exact hs

theorem processCalls_safe {secret : String} {reg : List ToolDecl} :
    ∀ (calls : List ToolCall) (ctx : Ctx), (∀ c ∈ calls, callSafe secret reg c) →
      ∀ m ∈ (processCalls reg ctx calls).1, msgSafe secret m := by
  intro calls
  induction calls with
  | nil => intro ctx _ m hm; simp [processCalls] at hm
  | cons c cs ih =>
    intro ctx h m hm
    simp only [processCalls, List.mem_cons] at hm
    rcases hm with rfl | hm
    · exact runToolCall_safe (h c (List.mem_cons_self c cs))
    · exact ih _ (fun c' hc' => h c' (List.mem_cons_of_mem c hc')) m hm

/-- C5: the loop never places an execution-context value in the conversation
transcript unless a handler returns it.  Whenever the secret occurs in no
initial message, in no final message the oracle can emit, and in no
tool-result any requested call can produce (in particular, no handler
returns it), then no message of the loop's transcript contains the secret as
a substring; the initial messages are a prefix of that transcript, and every
message sequence submitted to the oracle during the run is such a prefix
stage, so no outgoing message carries the secret. -/
theorem C5_context_confidentiality (secret : String) (oracle : Oracle)
    (reg : List ToolDecl) (ctx : Ctx) (msgs : List Message) (N : Nat)
    (h_init : ∀ m ∈ msgs, msgSafe secret m)
    (h_oracle : oracleSafe secret reg oracle) :
    (∀ m ∈ transcriptOf (runLoop oracle reg ctx msgs N).2, msgSafe secret m) ∧
    msgs <+: transcriptOf (runLoop oracle reg ctx msgs N).2 := by
  induction N generalizing ctx msgs with
  | zero => exact ⟨h_init, List.prefix_refl msgs⟩
  | succ n ih =>
    cases hr : oracle msgs with
    | finalMsg t =>
      have hsafe := (h_oracle msgs).1 t hr
      constructor
      · intro m hm
        simp only [runLoop, hr, transcriptOf, List.mem_append, List.mem_singleton] at hm
        rcases hm with hm | rfl
        · exact h_init m hm
        · exact hsafe
      · simp only [runLoop, hr, transcriptOf]
        exact List.prefix_append msgs _
    | toolCalls cs =>
      have hcall := (h_oracle msgs).2 cs hr
      have hnew := @processCalls_safe secret reg cs ctx hcall
      have hinit2 : ∀ m ∈ msgs ++ (processCalls reg ctx cs).1, msgSafe secret m := by
        intro m hm
        rcases List.mem_append.mp hm with h | h
        · exact h_init m h
        · exact hnew m h
      obtain ⟨ha, hb⟩ := ih (processCalls reg ctx cs).2 (msgs ++ (processCalls reg ctx cs).1) hinit2
      constructor
      · intro m hm
        apply ha
        simpa only [runLoop, hr] using hm
      · exact List.IsPrefix.trans (List.prefix_append msgs (processCalls reg ctx cs).1)
          (by simpa only [runLoop, hr] using hb)

theorem weatherOracle_safe : oracleSafe "1" UserCtx.registry weatherOracle := by
  intro ms
  have hcases : weatherOracle ms = OracleResponse.toolCalls [⟨"get_user_location", []⟩] ∨
      weatherOracle ms = OracleResponse.toolCalls [⟨"get_weather", [("city", "New York")]⟩] ∨
      weatherOracle ms =
        OracleResponse.finalMsg "The weather outside in New York is sunny, as always." := by
    unfold weatherOracle
    rcases h : countToolResults ms with _ | _ | k <;> simp
  have hloc : callSafe "1" UserCtx.registry ⟨"get_user_location", []⟩ := by
    refine ⟨by decide, ?_⟩
    intro d hd
    have hres : resolve UserCtx.registry "get_user_location" =
        Except.ok UserCtx.getUserLocationDecl := rfl
    rw [hres] at hd
    cases hd
    refine ⟨?_, ?_⟩
    · intro ps hps
      simp [UserCtx.getUserLocationDecl] at hps
    · intro ctx
      show msgSafe "1" (toolResultMsg "get_user_location"
        (if assocGet ctx "user_id" = some "1" then "New York" else "San Francisco"))
      split <;> decide
  have hwx : callSafe "1" UserCtx.registry ⟨"get_weather", [("city", "New York")]⟩ := by
    refine ⟨by decide, ?_⟩
    intro d hd
    have hres : resolve UserCtx.registry "get_weather" =
        Except.ok UserCtx.getWeatherDecl := rfl
    rw [hres] at hd
    cases hd
    refine ⟨?_, ?_⟩
    · intro ps hps
      simp only [UserCtx.getWeatherDecl, List.mem_singleton] at hps
      subst hps
      decide
    · intro ctx
      show msgSafe "1" (toolResultMsg "get_weather" "It's always sunny in New York")
      decide
  rcases hcases with h | h | h <;> rw [h] <;> constructor
  · intro t ht; cases ht
  · intro cs hcs c hc
    cases hcs
    simp only [List.mem_singleton] at hc
    subst hc
    exact hloc
  · intro t ht; cases ht
  · intro cs hcs c hc
    cases hcs
    simp only [List.mem_singleton] at hc
    subst hc
    exact hwx
  · intro t ht
    cases ht
    decide
  · intro cs hcs; cases hcs

/-- Witness for C5: with secret "1" (the `user_id` value of the context),
the scripted weather oracle and the registry of
`2_agent_toolSetup_userContext.ts`, no message of the loop's transcript
contains the secret. -/
theorem C5_witness :
    (∀ m ∈ transcriptOf
        (runLoop weatherOracle UserCtx.registry UserCtx.configContext [weatherUserMsg] 5).2,
      msgSafe "1" m) ∧
    [weatherUserMsg] <+: transcriptOf
      (runLoop weatherOracle UserCtx.registry UserCtx.configContext [weatherUserMsg] 5).2 := by
  apply C5_context_confidentiality "1" weatherOracle UserCtx.registry UserCtx.configContext
    [weatherUserMsg] 5
  · intro m hm
    simp only [List.mem_singleton] at hm
    subst hm
    decide
  · exact weatherOracle_safe

/-! ## Structured output coercion (phase 2 of the unnamed two-phase script)

The source wraps the same LLM via `withStructuredOutput(responseFormat)` and
invokes it once on the loop's final text; the parse-and-retry machinery is
library code outside `src/`, so the phase is modelled from the
specification. -/

/-- The coercion phase's terminal error.  Modelled from the spec. -/
inductive CoerceError
  | SchemaCoercionFailed
deriving DecidableEq

/-- The output schema of the unnamed two-phase script:
`z.object({ humour_response: z.string(), weatherCondition: z.string() })`,
as the list of its field names. -/
def responseFormat : List String := ["humour_response", "weatherCondition"]

/-- Modelled from the spec: parsing the formatter oracle's raw output
against a fixed output schema — accepted exactly when it returns only fields
matching the schema. -/
def parseRecord (schema : List String) (out : List (String × String)) :
    Option (List (String × String)) :=
  if out.map Prod.fst = schema then some out else none

/-- Modelled from the spec: the structured output coercion phase.  It issues
one additional oracle call constrained to the schema on the loop's final
text (treated as opaque); if the output does not parse it retries once, and
fails with `SchemaCoercionFailed` if the retry's output does not parse
either.  The first component counts the oracle calls issued. -/
def coerceStructured (fmtOracle : Nat → String → List (String × String))
    (schema : List String) (finalText : String) :
    Nat × Except CoerceError (List (String × String)) :=
  match parseRecord schema (fmtOracle 0 finalText) with
  | some r => (1, Except.ok r)
  | none =>
    match parseRecord schema (fmtOracle 1 finalText) with
    | some r => (2, Except.ok r)
    | none => (2, Except.error CoerceError.SchemaCoercionFailed)

/-- C8: when the oracle's first output parses against the schema, the
coercion phase issues exactly one additional oracle call and returns the
parsed record; when neither the first output nor the retry's parses, it
fails with `SchemaCoercionFailed`; the phase is decoupled from the loop — it
depends on the loop's final text only through what the oracle answers on it
(opaque text); and any accepted record carries exactly the schema's
fields. -/
theorem C8_structured_coercion (f : Nat → String → List (String × String))
    (schema : List String) (finalText : String) :
    (∀ r, parseRecord schema (f 0 finalText) = some r →
      coerceStructured f schema finalText = (1, Except.ok r)) ∧
    (parseRecord schema (f 0 finalText) = none →
      parseRecord schema (f 1 finalText) = none →
      coerceStructured f schema finalText = (2, Except.error CoerceError.SchemaCoercionFailed)) ∧
    (∀ g t2, (∀ i, f i finalText = g i t2) →
      coerceStructured f schema finalText = coerceStructured g schema t2) ∧
    (∀ k r, coerceStructured f schema finalText = (k, Except.ok r) →
      r.map Prod.fst = schema) := by
  refine ⟨?_, ?_, ?_, ?_⟩
  · intro r h
    unfold coerceStructured
    rw [h]
  · intro h0 h1
    unfold coerceStructured
    rw [h0, h1]
  · intro g t2 hagree
    unfold coerceStructured
    rw [hagree 0, hagree 1]
  · intro k r h
    unfold coerceStructured at h
    cases h0 : parseRecord schema (f 0 finalText) with
    | some r0 =>
      rw [h0] at h
      cases h
      unfold parseRecord at h0
      split at h0
      · cases h0; assumption
      · cases h0
    | none =>
      rw [h0] at h
      cases h1 : parseRecord schema (f 1 finalText) with
      | some r1 =>
        rw [h1] at h
        cases h
        unfold parseRecord at h1
        split at h1
        · cases h1; assumption
        · cases h1
      | none =>
        rw [h1] at h
        cases h

/-- Witness for C8: a formatter oracle answering the two fields of
`responseFormat` on the first try — the example output of the unnamed
two-phase script — is accepted with exactly one oracle call; an oracle
answering an empty record twice fails with `SchemaCoercionFailed`. -/
theorem C8_witness :
    coerceStructured
        (fun _ _ => [("humour_response", "Looks like the sun clocked in for overtime"),
          ("weatherCondition", "Sunny")])
        responseFormat "It's always sunny in New York" =
      (1, Except.ok [("humour_response", "Looks like the sun clocked in for overtime"),
        ("weatherCondition", "Sunny")]) ∧
    coerceStructured (fun _ _ => []) responseFormat "It's always sunny in New York" =
      (2, Except.error CoerceError.SchemaCoercionFailed) :=
  ⟨(C8_structured_coercion
      (fun _ _ => [("humour_response", "Looks like the sun clocked in for overtime"),
        ("weatherCondition", "Sunny")])
      responseFormat "It's always sunny in New York").1 _ rfl,
   (C8_structured_coercion (fun _ _ => []) responseFormat
      "It's always sunny in New York").2.1 rfl rfl⟩

end FreeLLM
